import Mathlib

/-!
Shallow embedding of the devpod AWS provider core
(pkg/aws/vpc.go, pkg/aws/spot.go, cmd/command.go, pkg/options/options.go).

External AWS SDK calls are modelled by scripted responses held in an
environment record; each embedded function returns its Go result together
with the trace of SDK calls it issued, so that call counts and call order
are provable.  Go errors are string-carrying values; runtime faults
(nil-pointer dereference, out-of-range index) are a distinguished outcome.
-/

/-- Outcome of an embedded Go function that can go wrong: a returned Go
error value carrying its message, a runtime fault (nil dereference or an
out-of-range index), or exhaustion of the scripted responses of the
unbounded spot poll loop (the loop would keep polling forever). -/
inductive PErr where
  | err (msg : String)
  | fault
  | hang
  deriving DecidableEq

/-- Configuration record from pkg/options/options.go (struct Options). -/
structure Options where
  DiskImage : String
  DiskSizeGB : Int
  MachineFolder : String
  MachineID : String
  MachineType : String
  VpcID : String
  SubnetID : String
  SecurityGroupID : String
  InstanceProfileArn : String
  InstanceTags : String
  Zone : String
  UseSpot : Bool
  CreateVpc : Bool
  deriving DecidableEq

deriving instance DecidableEq for Except

/-- Whether needle occurs as a contiguous run inside haystack. -/
def listInfixOf (needle : List Char) : List Char → Bool
  | [] => needle.isEmpty
  | c :: rest => needle.isPrefixOf (c :: rest) || listInfixOf needle rest

/-- strings.Contains from the Go standard library: substring test. -/
def strContains (s sub : String) : Bool :=
  listInfixOf sub.data s.data

/-- AWS tag list membership: the resource carries a tag with the given
key and value (semantics of a tag:key = value describe filter). -/
def hasTag (tags : List (String × String)) (k v : String) : Bool :=
  tags.any (fun t => t.1 == k && t.2 == v)

/-- int32(n) conversion in Go: two's-complement wraparound. -/
def toInt32 (n : Int) : Int :=
  (n + 2 ^ 31) % 2 ^ 32 - 2 ^ 31

/-- A VPC as read by vpc.go: its tag list, default marker and ID
(the code dereferences these fields unconditionally). -/
structure Vpc where
  Tags : List (String × String)
  IsDefault : Bool
  VpcId : String
  deriving DecidableEq

/-- A security group as read by vpc.go (GroupId is the only field the
code reads; VpcId and Tags exist so a resource store can filter). -/
structure SecurityGroup where
  GroupId : String
  VpcId : String
  Tags : List (String × String)
  deriving DecidableEq

/-- A subnet as read by vpc.go. -/
structure Subnet where
  SubnetId : String
  VpcId : String
  MapPublicIpOnLaunch : Bool
  AvailableIpAddressCount : Int
  Tags : List (String × String)
  deriving DecidableEq

/-- The EC2 control-plane calls issued by vpc.go, with the payload each
call sends where a claim depends on it. -/
inductive NetCall where
  | describeVpcs
  | createVpcCall (tags : List (String × String))
  | describeSecurityGroups
  | createSecurityGroupCall (tags : List (String × String)) (vpcId : String)
  | authorizeSecurityGroupIngress
  | describeSubnetsByTag
  | describeSubnetsByVpc
  | describeSubnetsByName
  | createSubnetCall (tags : List (String × String)) (vpcId : String)
  | modifySubnetAttribute (subnetId : String)
  | createRouteTable
  | associateRouteTable
  | createRoute
  deriving DecidableEq

/-- Scripted SDK responses for the vpc.go functions.  describeSecurityGroups
is the raw (output pointer, error) pair the SDK hands back, because
GetDevpodSecurityGroup reads the output before checking the error. -/
structure NetEnv where
  describeVpcs : Except String (List Vpc)
  createVpc : Except String String
  describeSecurityGroups : Option (List SecurityGroup) × Option String
  createSecurityGroup : Except String String
  authorizeIngress : Except String Unit
  describeSubnetsByTag : Except String (List Subnet)
  describeSubnetsByVpc : Except String (List Subnet)
  describeSubnetsByName : Except String (List Subnet)
  createSubnet : Except String String
  modifySubnetAttr : Except String Unit
  createRouteTable : Except String String
  associateRouteTable : Except String Unit
  createRoute : Except String Unit
  deriving DecidableEq

/-- The inner loop of GetDevpodVPC (vpc.go lines 32-36): the VPC carries
a tag with Key "Name" whose Value contains "devpod". -/
def devpodNameTagged (v : Vpc) : Bool :=
  v.Tags.any (fun t => t.1 == "Name" && strContains t.2 "devpod")

/-- The double loop in GetDevpodVPC (vpc.go lines 31-37): the first VPC
carrying a tag with Key "Name" whose Value contains "devpod". -/
def findDevpodTagged : List Vpc → Option String
  | [] => none
  | v :: rest =>
    if devpodNameTagged v then some v.VpcId
    else findDevpodTagged rest

/-- The fallback loop in GetDevpodVPC (vpc.go lines 48-52): the first VPC
marked as default. -/
def findDefault : List Vpc → Option String
  | [] => none
  | v :: rest => if v.IsDefault then some v.VpcId else findDefault rest

/-- CreateDevpodVpc (vpc.go lines 58-80): one CreateVpc call, tagged
Name = "devpod"; the API error, if any, is returned as is. -/
def CreateDevpodVpc (env : NetEnv) : Except PErr String × List NetCall :=
  match env.createVpc with
  | .error e => (.error (.err e), [.createVpcCall [("Name", "devpod")]])
  | .ok vpcId => (.ok vpcId, [.createVpcCall [("Name", "devpod")]])

/-- GetDevpodVPC (vpc.go lines 15-55): explicit ID short-circuit, else
DescribeVpcs; empty list is an immediate error; else first Name-contains-
devpod VPC; else create (when the CreateVpc flag is set); else first
default VPC; else a "no suitable VPC found" error. -/
def GetDevpodVPC (cfg : Options) (env : NetEnv) : Except PErr String × List NetCall :=
  if cfg.VpcID ≠ "" then (.ok cfg.VpcID, [])
  else
    match env.describeVpcs with
    | .error e => (.error (.err e), [.describeVpcs])
    | .ok vpcs =>
      if vpcs.length == 0 then
        (.error (.err "there are no VPCs to associate with"), [.describeVpcs])
      else
        match findDevpodTagged vpcs with
        | some vpcId => (.ok vpcId, [.describeVpcs])
        | none =>
          if cfg.CreateVpc then
            match CreateDevpodVpc env with
            | (r, t) => (r, .describeVpcs :: t)
          else
            match findDefault vpcs with
            | some vpcId => (.ok vpcId, [.describeVpcs])
            | none => (.error (.err "no suitable VPC found"), [.describeVpcs])

/-- CreateDevpodSecurityGroup (vpc.go lines 117-181): resolve the VPC,
create the group tagged devpod = "devpod" inside it, authorize inbound
TCP/22 from 0.0.0.0/0; every sub-step error is returned as is. -/
def CreateDevpodSecurityGroup (cfg : Options) (env : NetEnv) :
    Except PErr String × List NetCall :=
  match GetDevpodVPC cfg env with
  | (.error e, t) => (.error e, t)
  | (.ok vpc, t) =>
    let c := NetCall.createSecurityGroupCall [("devpod", "devpod")] vpc
    match env.createSecurityGroup with
    | .error e => (.error (.err e), t ++ [c])
    | .ok groupID =>
      match env.authorizeIngress with
      | .error e => (.error (.err e), t ++ [c, .authorizeSecurityGroupIngress])
      | .ok _ => (.ok groupID, t ++ [c, .authorizeSecurityGroupIngress])

/-- GetDevpodSecurityGroup (vpc.go lines 82-115): explicit ID
short-circuit, else DescribeSecurityGroups filtered by tag devpod =
"devpod" (and vpc-id when configured).  The code evaluates
len(result.SecurityGroups) before checking err, so a failed call, whose
output pointer is nil, is a nil dereference (fault); a non-nil output
that is empty, or any set error, routes into CreateDevpodSecurityGroup. -/
def GetDevpodSecurityGroup (cfg : Options) (env : NetEnv) :
    Except PErr String × List NetCall :=
  if cfg.SecurityGroupID ≠ "" then (.ok cfg.SecurityGroupID, [])
  else
    match env.describeSecurityGroups with
    | (none, _) => (.error .fault, [.describeSecurityGroups])
    | (some sgs, errOpt) =>
      match sgs, errOpt with
      | g :: _, none => (.ok g.GroupId, [.describeSecurityGroups])
      | _, _ =>
        match CreateDevpodSecurityGroup cfg env with
        | (r, t) => (r, .describeSecurityGroups :: t)

/-- CreateDevpodSubnet (vpc.go lines 184-261): resolve the VPC, create a
subnet tagged Name = "devpod" and devpod = MachineID, enable public-IP
auto-assignment, create and associate a route table, add a route; every
sub-step error is returned as is. -/
def CreateDevpodSubnet (cfg : Options) (env : NetEnv) :
    Except PErr String × List NetCall :=
  match GetDevpodVPC cfg env with
  | (.error e, t) => (.error e, t)
  | (.ok vpc, t) =>
    let c := NetCall.createSubnetCall [("Name", "devpod"), ("devpod", cfg.MachineID)] vpc
    match env.createSubnet with
    | .error e => (.error (.err e), t ++ [c])
    | .ok subnetId =>
      match env.modifySubnetAttr with
      | .error e => (.error (.err e), t ++ [c, .modifySubnetAttribute subnetId])
      | .ok _ =>
        match env.createRouteTable with
        | .error e =>
          (.error (.err e), t ++ [c, .modifySubnetAttribute subnetId, .createRouteTable])
        | .ok _ =>
          match env.associateRouteTable with
          | .error e =>
            (.error (.err e),
             t ++ [c, .modifySubnetAttribute subnetId, .createRouteTable, .associateRouteTable])
          | .ok _ =>
            match env.createRoute with
            | .error e =>
              (.error (.err e),
               t ++ [c, .modifySubnetAttribute subnetId, .createRouteTable,
                     .associateRouteTable, .createRoute])
            | .ok _ =>
              (.ok subnetId,
               t ++ [c, .modifySubnetAttribute subnetId, .createRouteTable,
                     .associateRouteTable, .createRoute])

/-- The selection loop in GetSubnetID (vpc.go lines 314-323): running
maximum over AvailableIpAddressCount, starting from 0 and the empty
subnet ID, keeping the earlier subnet on ties. -/
def pickMaxSubnet (subnets : List Subnet) : String :=
  (subnets.foldl
    (fun (acc : Int × String) v =>
      if v.AvailableIpAddressCount > acc.1 then (v.AvailableIpAddressCount, v.SubnetId) else acc)
    (0, "")).2

/-- GetSubnetID (vpc.go lines 263-326): explicit ID short-circuit, else
DescribeSubnets filtered by tag devpod = "devpod" (first hit wins), else
DescribeSubnets filtered by the configured vpc-id and
map-public-ip-on-launch, picking the subnet with the most available
addresses; an empty second result yields the empty ID with no error. -/
def GetSubnetID (cfg : Options) (env : NetEnv) : Except PErr String × List NetCall :=
  if cfg.SubnetID ≠ "" then (.ok cfg.SubnetID, [])
  else
    match env.describeSubnetsByTag with
    | .error e => (.error (.err e), [.describeSubnetsByTag])
    | .ok subnets =>
      match subnets with
      | s :: _ => (.ok s.SubnetId, [.describeSubnetsByTag])
      | [] =>
        match env.describeSubnetsByVpc with
        | .error e => (.error (.err e), [.describeSubnetsByTag, .describeSubnetsByVpc])
        | .ok subnets2 =>
          (.ok (pickMaxSubnet subnets2), [.describeSubnetsByTag, .describeSubnetsByVpc])

/-- GetDevpodSubnet (vpc.go lines 328-350): DescribeSubnets filtered by
tag Name = "devpod"; an empty result is the "no devpod subnet found"
error, else the first subnet ID is returned. -/
def GetDevpodSubnet (env : NetEnv) : Except PErr String × List NetCall :=
  match env.describeSubnetsByName with
  | .error e => (.error (.err e), [.describeSubnetsByName])
  | .ok subnets =>
    match subnets with
    | [] => (.error (.err "no devpod subnet found"), [.describeSubnetsByName])
    | s :: _ => (.ok s.SubnetId, [.describeSubnetsByName])

/-- One spot instance request inside a DescribeSpotInstanceRequests
response: the status code (a string pointer the loop dereferences
unconditionally) and the optionally attached instance ID. -/
structure SpotReqStatus where
  statusCode : Option String
  instanceId : Option String
  deriving DecidableEq

/-- The launch specification CreateSpotInstance submits
(types.RequestSpotLaunchSpecification, the fields spot.go sets). -/
structure RequestSpotLaunchSpecification where
  InstanceType : String
  SecurityGroupIds : List String
  VolumeSize : Int
  ImageId : String
  UserData : String
  SubnetId : String
  IamInstanceProfile : Option String
  deriving DecidableEq

/-- The EC2 calls issued by CreateSpotInstance. -/
inductive SpotCall where
  | requestSpotInstances (spec : RequestSpotLaunchSpecification)
  | describeSpotInstanceRequests (ids : List String)
  | createTags (resources : List String) (tags : List (String × String))
  deriving DecidableEq

/-- Scripted responses for CreateSpotInstance: the GetSubnetID result,
the security-group lookup, the keypair user-data script, the
RequestSpotInstances response (its list of spot request IDs), one
DescribeSpotInstanceRequests response per poll, and the CreateTags
response. -/
structure SpotEnv where
  subnetLookup : Except PErr String
  sgLookup : Except String (List String)
  keypairScript : Except String String
  requestSpot : Except String (List String)
  pollResponses : List (Except String (List SpotReqStatus))
  createTagsResult : Except String Unit
  deriving DecidableEq

/-- The subnet resolution at the head of CreateSpotInstance (spot.go
lines 124-140): when a VPC is configured without a subnet, consult
GetSubnetID and reject the empty ID; an explicitly configured subnet
always wins. -/
def subnetStep (cfg : Options) (env : SpotEnv) : Except PErr String :=
  if cfg.VpcID ≠ "" && cfg.SubnetID == "" then
    match env.subnetLookup with
    | .error e => .error e
    | .ok subnetID =>
      if subnetID == "" then
        .error (.err ("could not find a matching SubnetID in VPC " ++ cfg.VpcID ++
          ", please specify one"))
      else .ok subnetID
  else .ok cfg.SubnetID

/-- The unbounded fulfilment poll of CreateSpotInstance (spot.go lines
201-221), run against the scripted responses: each iteration issues one
DescribeSpotInstanceRequests call; an API error aborts with that error;
a response whose first request has status code "fulfilled" and an
attached instance ID ends the loop with that ID; a nil status code is a
nil dereference; anything else sleeps and polls again.  Exhausting the
script means the real loop would poll forever. -/
def pollLoop (reqId : String) : List (Except String (List SpotReqStatus)) →
    Except PErr String × List SpotCall
  | [] => (.error .hang, [])
  | r :: rest =>
    match r with
    | .error e => (.error (.err e), [.describeSpotInstanceRequests [reqId]])
    | .ok reqs =>
      match reqs with
      | [] =>
        match pollLoop reqId rest with
        | (res, t) => (res, .describeSpotInstanceRequests [reqId] :: t)
      | req :: _ =>
        match req.statusCode with
        | none => (.error .fault, [.describeSpotInstanceRequests [reqId]])
        | some code =>
          if code == "fulfilled" && req.instanceId != none then
            match req.instanceId with
            | some iid => (.ok iid, [.describeSpotInstanceRequests [reqId]])
            | none => (.error .fault, [.describeSpotInstanceRequests [reqId]])
          else
            match pollLoop reqId rest with
            | (res, t) => (res, .describeSpotInstanceRequests [reqId] :: t)

/-- Body of CreateSpotInstance (spot.go lines 121-237) with the result of
the best-effort GetDevpodInstanceProfile lookup already reduced to the
option the code derives from it (the profile is attached exactly when the
lookup returned no error).  Returns the RequestSpotInstances output (its
request ID list) and the trace of EC2 calls. -/
def CreateSpotInstanceCore (cfg : Options) (env : SpotEnv) (profileOpt : Option String) :
    Except PErr (List String) × List SpotCall :=
  match subnetStep cfg env with
  | .error e => (.error e, [])
  | .ok devpodSubnet =>
    match env.sgLookup with
    | .error e => (.error (.err e), [])
    | .ok devpodSG =>
      match env.keypairScript with
      | .error e => (.error (.err e), [])
      | .ok userData =>
        let spec : RequestSpotLaunchSpecification :=
          { InstanceType := cfg.MachineType
            SecurityGroupIds := devpodSG
            VolumeSize := toInt32 cfg.DiskSizeGB
            ImageId := cfg.DiskImage
            UserData := userData
            SubnetId := if cfg.SubnetID ≠ "" then cfg.SubnetID else devpodSubnet
            IamInstanceProfile := profileOpt }
        match env.requestSpot with
        | .error e => (.error (.err e), [.requestSpotInstances spec])
        | .ok reqIds =>
          match reqIds with
          | [] => (.error .fault, [.requestSpotInstances spec])
          | reqId :: _ =>
            match pollLoop reqId env.pollResponses with
            | (.error e, pollTrace) =>
              (.error e, .requestSpotInstances spec :: pollTrace)
            | (.ok instanceId, pollTrace) =>
              let tagCall := SpotCall.createTags [instanceId] [("devpod", cfg.MachineID)]
              match env.createTagsResult with
              | .error e =>
                (.error (.err e), .requestSpotInstances spec :: pollTrace ++ [tagCall])
              | .ok _ =>
                (.ok reqIds, .requestSpotInstances spec :: pollTrace ++ [tagCall])

/-- CreateSpotInstance (spot.go lines 121-237): the profile lookup result
is folded into an option, failure meaning the profile field is omitted. -/
def CreateSpotInstance (cfg : Options) (env : SpotEnv)
    (profileLookup : Except String String) : Except PErr (List String) × List SpotCall :=
  CreateSpotInstanceCore cfg env profileLookup.toOption

/-- Scripted responses for DeleteSpot: the DescribeSpotInstanceRequests
response (the request IDs matching the tag filter), the cancel response
and the terminate response. -/
structure DeleteSpotEnv where
  describeSpotReqs : Except String (List String)
  cancelSpot : Except String Unit
  terminateInstances : Except String Unit
  deriving DecidableEq

/-- The EC2 calls issued by DeleteSpot. -/
inductive DelCall where
  | describeSpotReqs (tagValue : String)
  | cancelSpot (ids : List String)
  | terminate (ids : List String)
  deriving DecidableEq

/-- DeleteSpot (spot.go lines 239-279): look the spot request up by the
devpod tag, cancel the first returned request, then terminate the
instance; every sub-step error is returned as is.  The first element of
the response list is taken without a length check, so an empty response
is an out-of-range index (fault). -/
def DeleteSpot (instanceID : String) (env : DeleteSpotEnv) :
    Except PErr Unit × List DelCall :=
  match env.describeSpotReqs with
  | .error e => (.error (.err e), [.describeSpotReqs instanceID])
  | .ok reqs =>
    match reqs with
    | [] => (.error .fault, [.describeSpotReqs instanceID])
    | reqId :: _ =>
      match env.cancelSpot with
      | .error e =>
        (.error (.err e), [.describeSpotReqs instanceID, .cancelSpot [reqId]])
      | .ok _ =>
        match env.terminateInstances with
        | .error e =>
          (.error (.err e),
           [.describeSpotReqs instanceID, .cancelSpot [reqId], .terminate [instanceID]])
        | .ok _ =>
          (.ok (),
           [.describeSpotReqs instanceID, .cancelSpot [reqId], .terminate [instanceID]])

/-- An instance as read by cmd/command.go: the two optional addresses. -/
structure EC2Instance where
  PublicIpAddress : Option String
  PrivateIpAddress : Option String
  deriving DecidableEq

/-- A reservation from the running-instance lookup. -/
structure Reservation where
  Instances : List EC2Instance
  deriving DecidableEq

/-- Observable events of the command executor: an SSH connection attempt
to an address, and the command being run over an established session. -/
inductive CmdEvent where
  | connectAttempt (addr : String)
  | runCommand (addr : String)
  deriving DecidableEq

/-- Collaborators of cmd/command.go Run: the COMMAND environment
variable, the private key load, the running-instance lookup, and the SSH
client: connecting to an address may fail, and running the command over
an established session yields the command result. -/
structure CommandEnv where
  command : String
  privateKey : Except String String
  instanceLookup : Except String (List Reservation)
  sshConnect : String → Except String Unit
  sshRun : String → Except String Unit

/-- CommandCmd.Run (cmd/command.go lines 43-101): missing COMMAND and a
failed key load abort early; an empty reservation list is the
"doesn't exist" error; the public IP, when present, is tried first, a
failed connection falling through to the private IP, when present; a
successful connection runs the command over it and returns its result;
with no address left the "not reachable" error names the machine.
Reservations[0].Instances[0] is read without a bounds check on
Instances, so an instance-less reservation is a fault. -/
def CommandRun (cfg : Options) (env : CommandEnv) : Except PErr Unit × List CmdEvent :=
  if env.command == "" then
    (.error (.err "command environment variable is missing"), [])
  else
    match env.privateKey with
    | .error e => (.error (.err ("load private key: " ++ e)), [])
    | .ok _ =>
      match env.instanceLookup with
      | .error e => (.error (.err e), [])
      | .ok reservations =>
        match reservations with
        | [] =>
          (.error (.err ("instance " ++ cfg.MachineID ++ " doesn't exist")), [])
        | res :: _ =>
          match res.Instances with
          | [] => (.error .fault, [])
          | inst :: _ =>
            let tryPrivate : List CmdEvent → Except PErr Unit × List CmdEvent :=
              fun sofar =>
                match inst.PrivateIpAddress with
                | some ip =>
                  let addr := ip ++ ":22"
                  match env.sshConnect addr with
                  | .ok _ =>
                    (match env.sshRun addr with
                     | .ok _ => .ok ()
                     | .error e => .error (.err e),
                     sofar ++ [.connectAttempt addr, .runCommand addr])
                  | .error _ =>
                    (.error (.err ("instance " ++ cfg.MachineID ++ " is not reachable")),
                     sofar ++ [.connectAttempt addr])
                | none =>
                  (.error (.err ("instance " ++ cfg.MachineID ++ " is not reachable")),
                   sofar)
            match inst.PublicIpAddress with
            | some ip =>
              let addr := ip ++ ":22"
              match env.sshConnect addr with
              | .ok _ =>
                (match env.sshRun addr with
                 | .ok _ => .ok ()
                 | .error e => .error (.err e),
                 [.connectAttempt addr, .runCommand addr])
              | .error _ => tryPrivate [.connectAttempt addr]
            | none => tryPrivate []

/-- The cloud resource store the tag queries run against: every VPC,
security group and subnet that exists, in creation order. -/
structure World where
  vpcs : List Vpc
  sgs : List SecurityGroup
  subnets : List Subnet
  deriving DecidableEq

/-- Server-side semantics of the DescribeSecurityGroups filters sent by
GetDevpodSecurityGroup: tag devpod = "devpod", plus vpc-id when one is
configured. -/
def sgQuery (cfg : Options) (w : World) : List SecurityGroup :=
  w.sgs.filter (fun g => hasTag g.Tags "devpod" "devpod" &&
    (cfg.VpcID == "" || g.VpcId == cfg.VpcID))

/-- Server-side semantics of the first DescribeSubnets filter sent by
GetSubnetID: tag devpod = "devpod". -/
def subnetTagQuery (w : World) : List Subnet :=
  w.subnets.filter (fun s => hasTag s.Tags "devpod" "devpod")

/-- Server-side semantics of the second DescribeSubnets filter sent by
GetSubnetID: the configured vpc-id and map-public-ip-on-launch = true. -/
def subnetVpcQuery (cfg : Options) (w : World) : List Subnet :=
  w.subnets.filter (fun s => s.VpcId == cfg.VpcID && s.MapPublicIpOnLaunch)

/-- Server-side semantics of the DescribeSubnets filter sent by
GetDevpodSubnet: tag Name = "devpod". -/
def subnetNameQuery (w : World) : List Subnet :=
  w.subnets.filter (fun s => hasTag s.Tags "Name" "devpod")

/-- The scripted responses a resource store induces: every describe call
answers with the matching resources and no error, every create call
succeeds and hands back the given fresh identifier. -/
def envOfWorld (cfg : Options) (w : World) (freshVpc freshSG freshSubnet : String) :
    NetEnv :=
  { describeVpcs := .ok w.vpcs
    createVpc := .ok freshVpc
    describeSecurityGroups := (some (sgQuery cfg w), none)
    createSecurityGroup := .ok freshSG
    authorizeIngress := .ok ()
    describeSubnetsByTag := .ok (subnetTagQuery w)
    describeSubnetsByVpc := .ok (subnetVpcQuery cfg w)
    describeSubnetsByName := .ok (subnetNameQuery w)
    createSubnet := .ok freshSubnet
    modifySubnetAttr := .ok ()
    createRouteTable := .ok "rtb-fresh"
    associateRouteTable := .ok ()
    createRoute := .ok () }

/-- Effect of one traced call on the resource store: each create call
adds the resource it sent, under the fresh identifier the scripted
response handed back; ModifySubnetAttribute flips the auto-assign flag of
the addressed subnet.  A fresh /24 subnet starts with 251 available
addresses. -/
def applyCall (freshVpc freshSG freshSubnet : String) (w : World) : NetCall → World
  | .createVpcCall tags =>
    { w with vpcs := w.vpcs ++ [{ Tags := tags, IsDefault := false, VpcId := freshVpc }] }
  | .createSecurityGroupCall tags vpc =>
    { w with sgs := w.sgs ++ [{ GroupId := freshSG, VpcId := vpc, Tags := tags }] }
  | .createSubnetCall tags vpc =>
    { w with subnets := w.subnets ++
        [{ SubnetId := freshSubnet, VpcId := vpc, MapPublicIpOnLaunch := false,
           AvailableIpAddressCount := 251, Tags := tags }] }
  | .modifySubnetAttribute sid =>
    { w with subnets := w.subnets.map (fun s =>
        if s.SubnetId == sid then { s with MapPublicIpOnLaunch := true } else s) }
  | _ => w

/-- Run one vpc.go function against a resource store: build the scripted
responses the store induces, run the function, and fold its create calls
back into the store. -/
def runWorld (f : Options → NetEnv → Except PErr String × List NetCall)
    (cfg : Options) (w : World) (freshVpc freshSG freshSubnet : String) :
    Except PErr String × World × List NetCall :=
  match f cfg (envOfWorld cfg w freshVpc freshSG freshSubnet) with
  | (r, t) => (r, t.foldl (applyCall freshVpc freshSG freshSubnet) w, t)

/-- A sample configuration used by concrete witnesses. -/
def cfg0 : Options :=
  { DiskImage := "ami-1", DiskSizeGB := 40, MachineFolder := "/machine",
    MachineID := "devpod-m", MachineType := "t3.micro", VpcID := "",
    SubnetID := "", SecurityGroupID := "", InstanceProfileArn := "",
    InstanceTags := "", Zone := "eu-central-1", UseSpot := true,
    CreateVpc := false }

/-- A sample scripted-response record used by concrete witnesses. -/
def envNet0 : NetEnv :=
  { describeVpcs := .ok [], createVpc := .ok "vpc-new",
    describeSecurityGroups := (some [], none), createSecurityGroup := .ok "sg-new",
    authorizeIngress := .ok (), describeSubnetsByTag := .ok [],
    describeSubnetsByVpc := .ok [], describeSubnetsByName := .ok [],
    createSubnet := .ok "subnet-new", modifySubnetAttr := .ok (),
    createRouteTable := .ok "rtb-new", associateRouteTable := .ok (),
    createRoute := .ok () }

/-- C4: a configuration with a non-empty explicit VPC (respectively
security-group, subnet) ID makes the corresponding resolver return that
string verbatim with nil error, issuing no describe or create call. -/
theorem explicit_ids_returned_verbatim (cfg : Options) (env : NetEnv) :
    (cfg.VpcID ≠ "" → GetDevpodVPC cfg env = (.ok cfg.VpcID, [])) ∧
    (cfg.SecurityGroupID ≠ "" →
      GetDevpodSecurityGroup cfg env = (.ok cfg.SecurityGroupID, [])) ∧
    (cfg.SubnetID ≠ "" → GetSubnetID cfg env = (.ok cfg.SubnetID, [])) := by
  refine ⟨fun hv => ?_, fun hs => ?_, fun hn => ?_⟩
  · simp [GetDevpodVPC, hv]
  · simp [GetDevpodSecurityGroup, hs]
  · simp [GetSubnetID, hn]

/-- Witness for C4 at a concrete configuration with all three IDs set. -/
theorem explicit_ids_returned_verbatim_witness :
    GetDevpodVPC { cfg0 with VpcID := "vpc-7" } envNet0 = (.ok "vpc-7", []) ∧
    GetDevpodSecurityGroup { cfg0 with SecurityGroupID := "sg-7" } envNet0 =
      (.ok "sg-7", []) ∧
    GetSubnetID { cfg0 with SubnetID := "subnet-7" } envNet0 = (.ok "subnet-7", []) :=
  ⟨(explicit_ids_returned_verbatim { cfg0 with VpcID := "vpc-7" } envNet0).1 (by decide),
   (explicit_ids_returned_verbatim { cfg0 with SecurityGroupID := "sg-7" } envNet0).2.1
     (by decide),
   (explicit_ids_returned_verbatim { cfg0 with SubnetID := "subnet-7" } envNet0).2.2
     (by decide)⟩

/-- C10: DeleteSpot reads SpotInstanceRequests[0] without a length check,
so a successful describe response with no matching spot request is an
out-of-range access (a runtime fault), not a returned error value, and
neither cancel nor terminate is issued. -/
theorem deleteSpot_empty_describe_is_fault :
    DeleteSpot "devpod-m"
      { describeSpotReqs := .ok [], cancelSpot := .ok (),
        terminateInstances := .ok () } =
      (.error .fault, [.describeSpotReqs "devpod-m"]) := rfl

/-- C2: DeleteSpot cancels the spot request strictly before terminating
the instance (a terminate call only ever appears last, after the cancel);
a failing describe, cancel or terminate makes DeleteSpot return that
error with the later calls not issued; and the nil result occurs exactly
when the describe finds a request and cancel and terminate both
succeed. -/
theorem deleteSpot_cancel_before_terminate (instanceID : String) (env : DeleteSpotEnv) :
    ((DeleteSpot instanceID env).1 = .ok () ↔
      (∃ reqId rest, env.describeSpotReqs = .ok (reqId :: rest)) ∧
        env.cancelSpot = .ok () ∧ env.terminateInstances = .ok ()) ∧
    (∀ ids, DelCall.terminate ids ∈ (DeleteSpot instanceID env).2 →
      ∃ reqId rest, env.describeSpotReqs = .ok (reqId :: rest) ∧
        (DeleteSpot instanceID env).2 =
          [.describeSpotReqs instanceID, .cancelSpot [reqId], .terminate [instanceID]]) ∧
    (∀ e, env.describeSpotReqs = .error e →
      (DeleteSpot instanceID env).1 = .error (.err e) ∧
        ∀ ids, DelCall.cancelSpot ids ∉ (DeleteSpot instanceID env).2 ∧
          DelCall.terminate ids ∉ (DeleteSpot instanceID env).2) ∧
    (∀ e reqId rest, env.describeSpotReqs = .ok (reqId :: rest) →
      env.cancelSpot = .error e →
      (DeleteSpot instanceID env).1 = .error (.err e) ∧
        ∀ ids, DelCall.terminate ids ∉ (DeleteSpot instanceID env).2) ∧
    (∀ e reqId rest, env.describeSpotReqs = .ok (reqId :: rest) →
      env.cancelSpot = .ok () → env.terminateInstances = .error e →
      (DeleteSpot instanceID env).1 = .error (.err e)) := by
  obtain ⟨d, c, t⟩ := env
  cases d with
  | error e => simp [DeleteSpot]
  | ok reqs =>
    cases reqs with
    | nil => simp [DeleteSpot]
    | cons reqId rest =>
      cases c with
      | error e => simp [DeleteSpot]
      | ok u =>
        cases u
        cases t with
        | error e => simp [DeleteSpot]
        | ok u2 => cases u2; simp [DeleteSpot]

/-- Witness for C2: each failure hypothesis discharged at a concrete
scripted environment. -/
theorem deleteSpot_cancel_before_terminate_witness :
    (DeleteSpot "devpod-m"
      { describeSpotReqs := .ok ["sir-1"], cancelSpot := .ok (),
        terminateInstances := .ok () }).1 = .ok () ∧
    (DeleteSpot "devpod-m"
      { describeSpotReqs := .error "boom", cancelSpot := .ok (),
        terminateInstances := .ok () }).1 = .error (.err "boom") ∧
    (DeleteSpot "devpod-m"
      { describeSpotReqs := .ok ["sir-1"], cancelSpot := .error "cfail",
        terminateInstances := .ok () }).1 = .error (.err "cfail") ∧
    (DeleteSpot "devpod-m"
      { describeSpotReqs := .ok ["sir-1"], cancelSpot := .ok (),
        terminateInstances := .error "tfail" }).1 = .error (.err "tfail") := by
  refine ⟨?_, ?_, ?_, ?_⟩
  · exact (deleteSpot_cancel_before_terminate "devpod-m"
      { describeSpotReqs := .ok ["sir-1"], cancelSpot := .ok (),
        terminateInstances := .ok () }).1.mpr ⟨⟨"sir-1", [], rfl⟩, rfl, rfl⟩
  · exact ((deleteSpot_cancel_before_terminate "devpod-m"
      { describeSpotReqs := .error "boom", cancelSpot := .ok (),
        terminateInstances := .ok () }).2.2.1 "boom" rfl).1
  · exact ((deleteSpot_cancel_before_terminate "devpod-m"
      { describeSpotReqs := .ok ["sir-1"], cancelSpot := .error "cfail",
        terminateInstances := .ok () }).2.2.2.1 "cfail" "sir-1" [] rfl rfl).1
  · exact (deleteSpot_cancel_before_terminate "devpod-m"
      { describeSpotReqs := .ok ["sir-1"], cancelSpot := .ok (),
        terminateInstances := .error "tfail" }).2.2.2.2 "tfail" "sir-1" [] rfl rfl rfl

/-- The SSH connection attempts of a command-executor trace, in order. -/
def connAttempts (t : List CmdEvent) : List String :=
  t.filterMap (fun e => match e with | .connectAttempt a => some a | _ => none)

/-- The candidate address list an optional IP contributes. -/
def addrList : Option String → List String
  | some ip => [ip ++ ":22"]
  | none => []

/-- C3: over a located instance, the executor tries the public IP first;
a failed public connection with a private IP present is followed by an
attempt on the private IP; with neither address set it returns the
"not reachable" error naming the machine without any connection attempt;
and the attempt list is a sublist of (public candidate, private
candidate), so each candidate address is tried at most once. -/
theorem commandRun_address_fallback (cfg : Options) (env : CommandEnv)
    (inst : EC2Instance) (instRest : List EC2Instance) (resRest : List Reservation)
    (hcmd : env.command ≠ "")
    (hkey : ∃ k, env.privateKey = .ok k)
    (hinst : env.instanceLookup = .ok ({ Instances := inst :: instRest } :: resRest)) :
    (∀ p, inst.PublicIpAddress = some p →
      ∃ t, (CommandRun cfg env).2 = CmdEvent.connectAttempt (p ++ ":22") :: t) ∧
    (∀ p q e, inst.PublicIpAddress = some p →
      env.sshConnect (p ++ ":22") = .error e → inst.PrivateIpAddress = some q →
      CmdEvent.connectAttempt (q ++ ":22") ∈ (CommandRun cfg env).2) ∧
    (inst.PublicIpAddress = none → inst.PrivateIpAddress = none →
      CommandRun cfg env =
        (.error (.err ("instance " ++ cfg.MachineID ++ " is not reachable")), [])) ∧
    List.Sublist (connAttempts (CommandRun cfg env).2)
      (addrList inst.PublicIpAddress ++ addrList inst.PrivateIpAddress) := by
  obtain ⟨k, hk⟩ := hkey
  have hc : (env.command == "") = false := by
    simpa using hcmd
  refine ⟨?_, ?_, ?_, ?_⟩
  · intro p hp
    cases hconn : env.sshConnect (p ++ ":22") with
    | ok u =>
      cases hrun : env.sshRun (p ++ ":22") <;>
        simp [CommandRun, hc, hk, hinst, hp, hconn, hrun]
    | error e =>
      cases hpriv : inst.PrivateIpAddress with
      | some q =>
        cases hconn2 : env.sshConnect (q ++ ":22") <;>
          simp [CommandRun, hc, hk, hinst, hp, hconn, hpriv, hconn2]
      | none => simp [CommandRun, hc, hk, hinst, hp, hconn, hpriv]
  · intro p q e hp hconn hpriv
    cases hconn2 : env.sshConnect (q ++ ":22") <;>
      simp [CommandRun, hc, hk, hinst, hp, hconn, hpriv, hconn2]
  · intro hp hpriv
    simp [CommandRun, hc, hk, hinst, hp, hpriv]
  · cases hp : inst.PublicIpAddress with
    | none =>
      cases hpriv : inst.PrivateIpAddress with
      | none => simp [CommandRun, hc, hk, hinst, hp, hpriv, connAttempts, addrList]
      | some q =>
        cases hconn2 : env.sshConnect (q ++ ":22") <;>
          simp [CommandRun, hc, hk, hinst, hp, hpriv, hconn2, connAttempts, addrList]
    | some p =>
      cases hconn : env.sshConnect (p ++ ":22") with
      | ok u =>
        simp only [CommandRun, hc, hk, hinst, hconn, hp]
        cases hrun : env.sshRun (p ++ ":22") <;>
          simp [hrun, connAttempts, addrList, List.Sublist.cons_cons,
            List.nil_sublist, List.sublist_append_left]
      | error e =>
        cases hpriv : inst.PrivateIpAddress with
        | none => simp [CommandRun, hc, hk, hinst, hp, hconn, hpriv, connAttempts, addrList]
        | some q =>
          cases hconn2 : env.sshConnect (q ++ ":22") <;>
            simp [CommandRun, hc, hk, hinst, hp, hconn, hpriv, hconn2, connAttempts,
              addrList]

/-- Sample executor collaborators: an instance with both addresses, the
public connection refused, the private one accepted. -/
def envCmdBoth : CommandEnv :=
  { command := "uptime", privateKey := .ok "KEY",
    instanceLookup := .ok
      [{ Instances := [{ PublicIpAddress := some "203.0.113.5",
                         PrivateIpAddress := some "10.0.0.5" }] }],
    sshConnect := fun a => if a == "10.0.0.5:22" then .ok () else .error "refused",
    sshRun := fun _ => .ok () }

/-- Sample executor collaborators: an instance with neither address. -/
def envCmdNoIps : CommandEnv :=
  { command := "uptime", privateKey := .ok "KEY",
    instanceLookup := .ok
      [{ Instances := [{ PublicIpAddress := none, PrivateIpAddress := none }] }],
    sshConnect := fun _ => .error "refused",
    sshRun := fun _ => .ok () }

/-- Witness for C3 at the two sample collaborator records. -/
theorem commandRun_address_fallback_witness :
    (∃ t, (CommandRun cfg0 envCmdBoth).2 =
      CmdEvent.connectAttempt "203.0.113.5:22" :: t) ∧
    CmdEvent.connectAttempt "10.0.0.5:22" ∈ (CommandRun cfg0 envCmdBoth).2 ∧
    CommandRun cfg0 envCmdNoIps =
      (.error (.err "instance devpod-m is not reachable"), []) ∧
    List.Sublist (connAttempts (CommandRun cfg0 envCmdBoth).2)
      (addrList (some "203.0.113.5") ++ addrList (some "10.0.0.5")) := by
  have h1 := commandRun_address_fallback cfg0 envCmdBoth
    { PublicIpAddress := some "203.0.113.5", PrivateIpAddress := some "10.0.0.5" }
    [] [] (by decide) ⟨"KEY", rfl⟩ rfl
  have h2 := commandRun_address_fallback cfg0 envCmdNoIps
    { PublicIpAddress := none, PrivateIpAddress := none }
    [] [] (by decide) ⟨"KEY", rfl⟩ rfl
  exact ⟨h1.1 "203.0.113.5" rfl,
    h1.2.1 "203.0.113.5" "10.0.0.5" "refused" rfl (by decide) rfl,
    h2.2.2.1 rfl rfl,
    h1.2.2.2⟩

/-- A scripted poll response on which the loop keeps waiting: no matching
request yet, a status other than fulfilled, or fulfilled with no
instance attached. -/
def pollContinues : Except String (List SpotReqStatus) → Bool
  | .error _ => false
  | .ok [] => true
  | .ok (req :: _) =>
    match req.statusCode with
    | none => false
    | some code => !(code == "fulfilled" && req.instanceId != none)

/-- A scripted poll response the loop ends on: status code "fulfilled"
with the given instance ID attached. -/
def pollFulfilled (iid : String) : Except String (List SpotReqStatus) → Bool
  | .ok (req :: _) => req.statusCode == some "fulfilled" && req.instanceId == some iid
  | _ => false

/-- The fulfilment poll issues exactly one DescribeSpotInstanceRequests
call per scripted response up to and including the fulfilled one, and
ends with the attached instance ID. -/
theorem pollLoop_run (reqId iid : String) :
    ∀ (k : Nat) (rs : List (Except String (List SpotReqStatus))),
      k < rs.length →
      (∀ i, i < k → pollContinues (rs.getD i (.ok [])) = true) →
      pollFulfilled iid (rs.getD k (.ok [])) = true →
      pollLoop reqId rs =
        (.ok iid, List.replicate (k + 1) (.describeSpotInstanceRequests [reqId])) := by
  intro k
  induction k with
  | zero =>
    intro rs hlen hbefore hat
    match rs, hlen with
    | r :: rest, _ =>
      simp only [List.getD, List.get?, Option.getD] at hat
      match r, hat with
      | .ok (req :: l), hat =>
        simp only [pollFulfilled, Bool.and_eq_true, beq_iff_eq] at hat
        obtain ⟨h1, h2⟩ := hat
        simp [pollLoop, h1, h2]
  | succ k ih =>
    intro rs hlen hbefore hat
    match rs, hlen with
    | r :: rest, hlen =>
      have h0 : pollContinues r = true := by
        have h := hbefore 0 (Nat.succ_pos k)
        simpa using h
      have hrec : pollLoop reqId rest =
          (.ok iid, List.replicate (k + 1) (.describeSpotInstanceRequests [reqId])) := by
        apply ih
        · simp only [List.length_cons] at hlen
          omega
        · intro i hi
          have h := hbefore (i + 1) (Nat.succ_lt_succ hi)
          simpa using h
        · simpa using hat
      match r, h0 with
      | .ok [], _ =>
        simp [pollLoop, hrec, List.replicate_succ]
      | .ok (req :: l), h0 =>
        match hsc : req.statusCode, h0 with
        | none, h0 => simp [pollContinues, hsc] at h0
        | some code, h0 =>
          have hcond : (code == "fulfilled" && req.instanceId != none) = false := by
            have := h0
            simp only [pollContinues, hsc, Bool.not_eq_true'] at this
            exact this
          simp [pollLoop, hsc, hcond, hrec, List.replicate_succ]

/-- Predicate picking the DescribeSpotInstanceRequests calls of a trace. -/
def isDescribeCall : SpotCall → Bool
  | .describeSpotInstanceRequests _ => true
  | _ => false

/-- Predicate picking the CreateTags calls of a trace. -/
def isCreateTagsCall : SpotCall → Bool
  | .createTags _ _ => true
  | _ => false

/-- Filtering a run of one accepted element keeps the whole run. -/
theorem filter_replicate_of_pos {α : Type} (p : α → Bool) (a : α) (h : p a = true) :
    ∀ n, (List.replicate n a).filter p = List.replicate n a := by
  intro n
  induction n with
  | zero => rfl
  | succ n ih => simp [List.replicate_succ, List.filter_cons, h, ih]

/-- C1: when the first k scripted status responses keep the loop waiting
and the following one reports fulfilled with an instance attached,
CreateSpotInstance issues exactly k + 1 DescribeSpotInstanceRequests
calls, returns the RequestSpotInstances output, and issues exactly one
CreateTags call, tagging exactly the attached instance with key devpod
and the machine identifier. -/
theorem createSpotInstance_poll_count (cfg : Options) (env : SpotEnv)
    (profileLookup : Except String String) (k : Nat) (iid : String)
    (devpodSubnet reqId : String) (reqRest : List String)
    (hsub : subnetStep cfg env = .ok devpodSubnet)
    (hsg : ∃ sg, env.sgLookup = .ok sg)
    (hud : ∃ u, env.keypairScript = .ok u)
    (hreq : env.requestSpot = .ok (reqId :: reqRest))
    (htags : env.createTagsResult = .ok ())
    (hlen : k < env.pollResponses.length)
    (hbefore : ∀ i, i < k → pollContinues (env.pollResponses.getD i (.ok [])) = true)
    (hat : pollFulfilled iid (env.pollResponses.getD k (.ok [])) = true) :
    (CreateSpotInstance cfg env profileLookup).1 = .ok (reqId :: reqRest) ∧
    ((CreateSpotInstance cfg env profileLookup).2.filter isDescribeCall).length = k + 1 ∧
    (CreateSpotInstance cfg env profileLookup).2.filter isCreateTagsCall =
      [.createTags [iid] [("devpod", cfg.MachineID)]] := by
  obtain ⟨sg, hsg⟩ := hsg
  obtain ⟨u, hud⟩ := hud
  have hp := pollLoop_run reqId iid k env.pollResponses hlen hbefore hat
  have hfd := filter_replicate_of_pos isDescribeCall
    (.describeSpotInstanceRequests [reqId]) rfl (k + 1)
  refine ⟨?_, ?_, ?_⟩ <;>
    simp [CreateSpotInstance, CreateSpotInstanceCore, hsub, hsg, hud, hreq, htags, hp,
      isDescribeCall, isCreateTagsCall, List.filter_cons, List.filter_append, hfd,
      filter_replicate_of_pos isCreateTagsCall, List.length_replicate]

/-- Sample spot environment: two waiting responses, then fulfilment. -/
def envSpot0 : SpotEnv :=
  { subnetLookup := .ok "", sgLookup := .ok ["sg-1"],
    keypairScript := .ok "#cloud-config", requestSpot := .ok ["sir-1"],
    pollResponses :=
      [.ok [{ statusCode := some "pending-evaluation", instanceId := none }],
       .ok [{ statusCode := some "pending-fulfillment", instanceId := none }],
       .ok [{ statusCode := some "fulfilled", instanceId := some "i-123" }]],
    createTagsResult := .ok () }

/-- Witness for C1: two pending polls, a fulfilled third, hence three
describe calls and one tag call on the fulfilled instance. -/
theorem createSpotInstance_poll_count_witness :
    (CreateSpotInstance cfg0 envSpot0 (.error "no profile")).1 = .ok ["sir-1"] ∧
    ((CreateSpotInstance cfg0 envSpot0 (.error "no profile")).2.filter
      isDescribeCall).length = 2 + 1 ∧
    (CreateSpotInstance cfg0 envSpot0 (.error "no profile")).2.filter isCreateTagsCall =
      [.createTags ["i-123"] [("devpod", cfg0.MachineID)]] :=
  createSpotInstance_poll_count cfg0 envSpot0 (.error "no profile") 2 "i-123" ""
    "sir-1" [] (by decide) ⟨["sg-1"], rfl⟩ ⟨"#cloud-config", rfl⟩ rfl rfl
    (by decide)
    (by
      intro i hi
      interval_cases i <;> decide)
    (by decide)

/-- Erase the one field of a traced call that the profile lookup feeds. -/
def eraseProfileField : SpotCall → SpotCall
  | .requestSpotInstances s => .requestSpotInstances { s with IamInstanceProfile := none }
  | c => c

/-- The launch specifications submitted in a trace. -/
def specsOf (t : List SpotCall) : List RequestSpotLaunchSpecification :=
  t.filterMap (fun c => match c with | .requestSpotInstances s => some s | _ => none)

/-- Mapping a function that fixes every member leaves the list as is. -/
theorem map_self_of_mem {α : Type} (f : α → α) :
    ∀ (l : List α), (∀ c ∈ l, f c = c) → l.map f = l := by
  intro l h
  induction l with
  | nil => rfl
  | cons a t ih =>
    simp only [List.map_cons, h a (by simp), List.cons.injEq, true_and]
    exact ih (fun c hc => h c (by simp [hc]))

/-- A filterMap whose function rejects every member gives the empty list. -/
theorem filterMap_nil_of_mem {α β : Type} (f : α → Option β) :
    ∀ (l : List α), (∀ c ∈ l, f c = none) → l.filterMap f = [] := by
  intro l h
  induction l with
  | nil => rfl
  | cons a t ih =>
    simp only [List.filterMap_cons, h a (by simp)]
    exact ih (fun c hc => h c (by simp [hc]))


/-- Every call the fulfilment poll issues is a describe call. -/
theorem pollLoop_trace_describe (reqId : String) :
    ∀ rs, ∀ c ∈ (pollLoop reqId rs).2,
      ∃ ids, c = SpotCall.describeSpotInstanceRequests ids := by
  intro rs
  induction rs with
  | nil =>
    intro c hc
    simp [pollLoop] at hc
  | cons r rest ih =>
    intro c hc
    match r with
    | .error e =>
      simp [pollLoop] at hc
      exact ⟨[reqId], hc⟩
    | .ok [] =>
      cases hp : pollLoop reqId rest with
      | mk res t =>
        simp [pollLoop, hp] at hc
        rcases hc with hc | hc
        · exact ⟨[reqId], hc⟩
        · exact ih c (by rw [hp]; exact hc)
    | .ok (req :: l) =>
      cases hsc : req.statusCode with
      | none =>
        simp [pollLoop, hsc] at hc
        exact ⟨[reqId], hc⟩
      | some code =>
        cases hcnd : (code == "fulfilled" && req.instanceId != none) with
        | true =>
          cases hiid : req.instanceId with
          | some iid =>
            rw [hiid] at hcnd
            simp only [Bool.and_eq_true, beq_iff_eq, bne_iff_ne, ne_eq] at hcnd
            simp [pollLoop, hsc, hiid, hcnd.1] at hc
            exact ⟨[reqId], hc⟩
          | none =>
            rw [hiid] at hcnd
            simp at hcnd
        | false =>
          cases hp : pollLoop reqId rest with
          | mk res t =>
            simp [pollLoop, hsc, hcnd, hp] at hc
            rcases hc with hc | hc
            · exact ⟨[reqId], hc⟩
            · exact ih c (by rw [hp]; exact hc)

/-- A trace of describe calls only contributes no launch specification. -/
theorem specsOf_nil_of_describe (tr : List SpotCall)
    (h : ∀ c ∈ tr, ∃ ids, c = SpotCall.describeSpotInstanceRequests ids) :
    specsOf tr = [] := by
  apply filterMap_nil_of_mem
  intro c hc
  obtain ⟨ids, rfl⟩ := h c hc
  rfl

/-- The profile lookup feeds only the IamInstanceProfile field of the
submitted launch specification: the result and the profile-erased trace
of the core do not depend on it, and every submitted specification
carries exactly the looked-up option. -/
theorem createSpotInstanceCore_profile_only_in_spec (cfg : Options) (env : SpotEnv)
    (o o2 : Option String) :
    (CreateSpotInstanceCore cfg env o).1 = (CreateSpotInstanceCore cfg env o2).1 ∧
    (CreateSpotInstanceCore cfg env o).2.map eraseProfileField =
      (CreateSpotInstanceCore cfg env o2).2.map eraseProfileField ∧
    (specsOf (CreateSpotInstanceCore cfg env o).2).all
      (fun s => s.IamInstanceProfile == o) = true := by
  unfold CreateSpotInstanceCore
  cases subnetStep cfg env with
  | error e => simp [specsOf]
  | ok dsn =>
    cases env.sgLookup with
    | error e => simp [specsOf]
    | ok sg =>
      cases env.keypairScript with
      | error e => simp [specsOf]
      | ok u =>
        cases env.requestSpot with
        | error e => simp [specsOf, eraseProfileField]
        | ok reqIds =>
          cases reqIds with
          | nil => simp [specsOf, eraseProfileField]
          | cons reqId rest =>
            have hdesc := pollLoop_trace_describe reqId env.pollResponses
            have he0 : (pollLoop reqId env.pollResponses).2.map eraseProfileField =
                (pollLoop reqId env.pollResponses).2 :=
              map_self_of_mem _ _ (fun c hc => by
                obtain ⟨ids, rfl⟩ := hdesc c hc
                rfl)
            have hsp0 : specsOf (pollLoop reqId env.pollResponses).2 = [] :=
              specsOf_nil_of_describe _ hdesc
            cases hp : pollLoop reqId env.pollResponses with
            | mk pres ptrace =>
              have he2 : ptrace.map eraseProfileField = ptrace := by
                rw [hp] at he0
                exact he0
              have hsp2 : specsOf ptrace = [] := by
                rw [hp] at hsp0
                exact hsp0
              cases pres with
              | error w =>
                refine ⟨by simp [hp], ?_, ?_⟩
                · simp only [hp, List.map_cons, eraseProfileField, he2]
                · simp only [hp]
                  rw [List.all_eq_true]
                  intro x hx
                  simp only [specsOf, List.filterMap_cons] at hx hsp2
                  simp only [List.mem_cons] at hx
                  rcases hx with hx | hx
                  · subst hx
                    simp
                  · rw [hsp2] at hx
                    simp at hx
              | ok iid =>
                cases env.createTagsResult with
                | error e2 =>
                  refine ⟨by simp [hp], ?_, ?_⟩
                  · simp only [hp, List.map_cons, List.map_append, List.map_nil,
                      eraseProfileField, he2]
                  · simp only [hp]
                    rw [List.all_eq_true]
                    intro x hx
                    simp only [specsOf, List.filterMap_cons, List.filterMap_append,
                      List.filterMap_nil, List.append_nil] at hx hsp2
                    simp only [List.mem_cons] at hx
                    rcases hx with hx | hx
                    · rw [hx]
                      simp
                    · simp [hsp2] at hx
                | ok u2 =>
                  refine ⟨by simp [hp], ?_, ?_⟩
                  · simp only [hp, List.map_cons, List.map_append, List.map_nil,
                      eraseProfileField, he2]
                  · simp only [hp]
                    rw [List.all_eq_true]
                    intro x hx
                    simp only [specsOf, List.filterMap_cons, List.filterMap_append,
                      List.filterMap_nil, List.append_nil] at hx hsp2
                    simp only [List.mem_cons] at hx
                    rcases hx with hx | hx
                    · rw [hx]
                      simp
                    · simp [hsp2] at hx

/-- C9: the instance-profile lookup is best effort: the result and the
profile-erased call trace of CreateSpotInstance are identical for any
two lookup outcomes, so a lookup error neither fails the launch nor
propagates to the caller; and every submitted launch specification
carries the profile ARN exactly when the lookup succeeded, omitting the
field otherwise. -/
theorem createSpotInstance_profile_best_effort (cfg : Options) (env : SpotEnv)
    (p q : Except String String) :
    (CreateSpotInstance cfg env p).1 = (CreateSpotInstance cfg env q).1 ∧
    (CreateSpotInstance cfg env p).2.map eraseProfileField =
      (CreateSpotInstance cfg env q).2.map eraseProfileField ∧
    (specsOf (CreateSpotInstance cfg env p).2).all
      (fun s => s.IamInstanceProfile == p.toOption) = true :=
  createSpotInstanceCore_profile_only_in_spec cfg env p.toOption q.toOption

/-- The tagged-VPC scan returns the first VPC satisfying the Name-tag
predicate, in the List.find? sense. -/
theorem findDevpodTagged_eq_find (vpcs : List Vpc) :
    findDevpodTagged vpcs = (vpcs.find? devpodNameTagged).map Vpc.VpcId := by
  induction vpcs with
  | nil => rfl
  | cons v rest ih =>
    by_cases hv : devpodNameTagged v = true
    · simp [findDevpodTagged, List.find?_cons_of_pos, hv]
    · have hv' : devpodNameTagged v = false := by
        exact Bool.eq_false_iff.mpr hv
      simp [findDevpodTagged, List.find?_cons_of_neg, hv', ih]

/-- The default-VPC scan returns the first default VPC, in the
List.find? sense. -/
theorem findDefault_eq_find (vpcs : List Vpc) :
    findDefault vpcs = (vpcs.find? (fun v => v.IsDefault)).map Vpc.VpcId := by
  induction vpcs with
  | nil => rfl
  | cons v rest ih =>
    by_cases hv : v.IsDefault = true
    · simp [findDefault, List.find?_cons_of_pos, hv]
    · have hv' : v.IsDefault = false := by
        exact Bool.eq_false_iff.mpr hv
      simp [findDefault, List.find?_cons_of_neg, hv', ih]

/-- C5 counterexample: with the create-VPC flag set, no explicit ID and a
DescribeVpcs response listing no VPCs, GetDevpodVPC does not create a
VPC (though the scripted CreateVpc call would succeed); it fails first
with the "there are no VPCs to associate with" error. -/
theorem getDevpodVPC_empty_list_beats_create :
    GetDevpodVPC { cfg0 with CreateVpc := true } envNet0 =
      (.error (.err "there are no VPCs to associate with"), [.describeVpcs]) ∧
    NetCall.createVpcCall [("Name", "devpod")] ∉
      (GetDevpodVPC { cfg0 with CreateVpc := true } envNet0).2 := by
  refine ⟨by decide, by decide⟩

/-- C5 amended: with no explicit ID, GetDevpodVPC resolves in this
order: an empty DescribeVpcs response fails with the "there are no VPCs"
error even when the create flag is set; else the first VPC whose Name
tag contains "devpod" is returned; else, when the create flag is set, a
VPC tagged Name = "devpod" (not the machine identifier) is created and
returned; else the first default VPC is returned; else the
"no suitable VPC found" error is returned. -/
theorem getDevpodVPC_resolution_order (cfg : Options) (env : NetEnv)
    (vpcs : List Vpc) (hid : cfg.VpcID = "") (hdv : env.describeVpcs = .ok vpcs) :
    (vpcs = [] →
      GetDevpodVPC cfg env =
        (.error (.err "there are no VPCs to associate with"), [.describeVpcs])) ∧
    (∀ v, vpcs.find? devpodNameTagged = some v →
      GetDevpodVPC cfg env = (.ok v.VpcId, [.describeVpcs])) ∧
    (vpcs ≠ [] → vpcs.find? devpodNameTagged = none → cfg.CreateVpc = true →
      ∀ newId, env.createVpc = .ok newId →
        GetDevpodVPC cfg env =
          (.ok newId, [.describeVpcs, .createVpcCall [("Name", "devpod")]])) ∧
    (∀ v, vpcs ≠ [] → vpcs.find? devpodNameTagged = none → cfg.CreateVpc = false →
      vpcs.find? (fun v2 => v2.IsDefault) = some v →
      GetDevpodVPC cfg env = (.ok v.VpcId, [.describeVpcs])) ∧
    (vpcs ≠ [] → vpcs.find? devpodNameTagged = none → cfg.CreateVpc = false →
      vpcs.find? (fun v2 => v2.IsDefault) = none →
      GetDevpodVPC cfg env =
        (.error (.err "no suitable VPC found"), [.describeVpcs])) := by
  refine ⟨?_, ?_, ?_, ?_, ?_⟩
  · intro hnil
    subst hnil
    simp [GetDevpodVPC, hid, hdv]
  · intro v hv
    have hne : vpcs ≠ [] := by
      intro hnil
      subst hnil
      simp at hv
    have hlen : (vpcs.length == 0) = false := by
      simp [List.length_eq_zero, hne]
    simp [GetDevpodVPC, hid, hdv, hlen, findDevpodTagged_eq_find, hv]
  · intro hne hfind hcv newId hnew
    have hlen : (vpcs.length == 0) = false := by
      simp [List.length_eq_zero, hne]
    simp [GetDevpodVPC, hid, hdv, hlen, findDevpodTagged_eq_find, hfind, hcv,
      CreateDevpodVpc, hnew]
  · intro v hne hfind hcv hdef
    have hlen : (vpcs.length == 0) = false := by
      simp [List.length_eq_zero, hne]
    simp [GetDevpodVPC, hid, hdv, hlen, findDevpodTagged_eq_find, hfind, hcv,
      findDefault_eq_find, hdef]
  · intro hne hfind hcv hdef
    have hlen : (vpcs.length == 0) = false := by
      simp [List.length_eq_zero, hne]
    simp [GetDevpodVPC, hid, hdv, hlen, findDevpodTagged_eq_find, hfind, hcv,
      findDefault_eq_find, hdef]

/-- Sample VPCs for concrete witnesses. -/
def vpcTagged : Vpc := { Tags := [("Name", "devpod-vpc")], IsDefault := false, VpcId := "vpc-t" }

/-- A default VPC with no tags. -/
def vpcDefault : Vpc := { Tags := [], IsDefault := true, VpcId := "vpc-d" }

/-- A non-default VPC with an unrelated Name tag. -/
def vpcPlain : Vpc := { Tags := [("Name", "main")], IsDefault := false, VpcId := "vpc-p" }

/-- Witness for C5: every branch of the resolution order exercised at a
concrete scripted response. -/
theorem getDevpodVPC_resolution_order_witness :
    GetDevpodVPC cfg0 envNet0 =
      (.error (.err "there are no VPCs to associate with"), [.describeVpcs]) ∧
    GetDevpodVPC cfg0 { envNet0 with describeVpcs := .ok [vpcPlain, vpcTagged] } =
      (.ok "vpc-t", [.describeVpcs]) ∧
    GetDevpodVPC { cfg0 with CreateVpc := true }
        { envNet0 with describeVpcs := .ok [vpcPlain] } =
      (.ok "vpc-new", [.describeVpcs, .createVpcCall [("Name", "devpod")]]) ∧
    GetDevpodVPC cfg0 { envNet0 with describeVpcs := .ok [vpcPlain, vpcDefault] } =
      (.ok "vpc-d", [.describeVpcs]) ∧
    GetDevpodVPC cfg0 { envNet0 with describeVpcs := .ok [vpcPlain] } =
      (.error (.err "no suitable VPC found"), [.describeVpcs]) := by
  refine ⟨?_, ?_, ?_, ?_, ?_⟩
  · exact (getDevpodVPC_resolution_order cfg0 envNet0 [] rfl rfl).1 rfl
  · exact (getDevpodVPC_resolution_order cfg0
      { envNet0 with describeVpcs := .ok [vpcPlain, vpcTagged] }
      [vpcPlain, vpcTagged] rfl rfl).2.1 vpcTagged (by decide)
  · exact (getDevpodVPC_resolution_order { cfg0 with CreateVpc := true }
      { envNet0 with describeVpcs := .ok [vpcPlain] }
      [vpcPlain] rfl rfl).2.2.1 (by decide) (by decide) rfl "vpc-new" rfl
  · exact (getDevpodVPC_resolution_order cfg0
      { envNet0 with describeVpcs := .ok [vpcPlain, vpcDefault] }
      [vpcPlain, vpcDefault] rfl rfl).2.2.2.1 vpcDefault (by decide) (by decide) rfl
      (by decide)
  · exact (getDevpodVPC_resolution_order cfg0
      { envNet0 with describeVpcs := .ok [vpcPlain] }
      [vpcPlain] rfl rfl).2.2.2.2 (by decide) (by decide) rfl (by decide)

/-- C6 counterexample: a failing DescribeSecurityGroups call does not
make GetDevpodSecurityGroup return that error.  The SDK hands back a nil
output with the error, and the code reads result.SecurityGroups before
checking err, a nil dereference; and even a non-nil empty output paired
with an error is routed into creation instead of being returned. -/
theorem getDevpodSecurityGroup_error_not_propagated :
    (GetDevpodSecurityGroup cfg0
      { envNet0 with describeSecurityGroups := (none, some "boom") }).1 =
        .error .fault ∧
    (GetDevpodSecurityGroup cfg0
      { envNet0 with describeSecurityGroups := (none, some "boom") }).1 ≠
        .error (.err "boom") ∧
    (GetDevpodSecurityGroup cfg0
      { envNet0 with describeVpcs := .ok [vpcDefault],
                     describeSecurityGroups := (some [], some "boom") }).1 =
        .ok "sg-new" := by
  refine ⟨by decide, by decide, by decide⟩

/-- C6 amended: every underlying API error inside the network resolver is
propagated unmodified with no retry and no alternative action, except a
failing DescribeSecurityGroups inside GetDevpodSecurityGroup: there the
nil response is dereferenced before the error check (a fault), so that
error is never returned and never reaches the caller. -/
theorem resolver_error_propagation (cfg : Options) (env : NetEnv) (e : String) :
    (cfg.VpcID = "" → env.describeVpcs = .error e →
      (GetDevpodVPC cfg env).1 = .error (.err e)) ∧
    (∀ vpcs, cfg.VpcID = "" → env.describeVpcs = .ok vpcs → vpcs ≠ [] →
      findDevpodTagged vpcs = none → cfg.CreateVpc = true →
      env.createVpc = .error e → (GetDevpodVPC cfg env).1 = .error (.err e)) ∧
    (∀ v, (GetDevpodVPC cfg env).1 = .ok v → env.createSecurityGroup = .error e →
      (CreateDevpodSecurityGroup cfg env).1 = .error (.err e)) ∧
    (∀ v g, (GetDevpodVPC cfg env).1 = .ok v → env.createSecurityGroup = .ok g →
      env.authorizeIngress = .error e →
      (CreateDevpodSecurityGroup cfg env).1 = .error (.err e)) ∧
    (cfg.SubnetID = "" → env.describeSubnetsByTag = .error e →
      (GetSubnetID cfg env).1 = .error (.err e)) ∧
    (cfg.SubnetID = "" → env.describeSubnetsByTag = .ok [] →
      env.describeSubnetsByVpc = .error e →
      (GetSubnetID cfg env).1 = .error (.err e)) ∧
    (env.describeSubnetsByName = .error e →
      (GetDevpodSubnet env).1 = .error (.err e)) ∧
    (∀ v, (GetDevpodVPC cfg env).1 = .ok v → env.createSubnet = .error e →
      (CreateDevpodSubnet cfg env).1 = .error (.err e)) ∧
    (∀ v s, (GetDevpodVPC cfg env).1 = .ok v → env.createSubnet = .ok s →
      env.modifySubnetAttr = .error e →
      (CreateDevpodSubnet cfg env).1 = .error (.err e)) ∧
    (∀ v s, (GetDevpodVPC cfg env).1 = .ok v → env.createSubnet = .ok s →
      env.modifySubnetAttr = .ok () → env.createRouteTable = .error e →
      (CreateDevpodSubnet cfg env).1 = .error (.err e)) ∧
    (∀ v s r, (GetDevpodVPC cfg env).1 = .ok v → env.createSubnet = .ok s →
      env.modifySubnetAttr = .ok () → env.createRouteTable = .ok r →
      env.associateRouteTable = .error e →
      (CreateDevpodSubnet cfg env).1 = .error (.err e)) ∧
    (∀ v s r, (GetDevpodVPC cfg env).1 = .ok v → env.createSubnet = .ok s →
      env.modifySubnetAttr = .ok () → env.createRouteTable = .ok r →
      env.associateRouteTable = .ok () → env.createRoute = .error e →
      (CreateDevpodSubnet cfg env).1 = .error (.err e)) ∧
    (cfg.SecurityGroupID = "" → ∀ msg, env.describeSecurityGroups = (none, some msg) →
      (GetDevpodSecurityGroup cfg env).1 = .error .fault) := by
  refine ⟨?_, ?_, ?_, ?_, ?_, ?_, ?_, ?_, ?_, ?_, ?_, ?_, ?_⟩
  · intro hid hdv
    simp [GetDevpodVPC, hid, hdv]
  · intro vpcs hid hdv hne hfind hcv hcr
    have hlen : (vpcs.length == 0) = false := by
      simp [List.length_eq_zero, hne]
    simp [GetDevpodVPC, hid, hdv, hlen, hfind, hcv, CreateDevpodVpc, hcr]
  · intro v hv hcr
    cases hg : GetDevpodVPC cfg env with
    | mk r t =>
      rw [hg] at hv
      simp at hv
      subst hv
      simp [CreateDevpodSecurityGroup, hg, hcr]
  · intro v g hv hcg hau
    cases hg : GetDevpodVPC cfg env with
    | mk r t =>
      rw [hg] at hv
      simp at hv
      subst hv
      simp [CreateDevpodSecurityGroup, hg, hcg, hau]
  · intro hid ht
    simp [GetSubnetID, hid, ht]
  · intro hid ht hv2
    simp [GetSubnetID, hid, ht, hv2]
  · intro hn
    simp [GetDevpodSubnet, hn]
  · intro v hv hcs
    cases hg : GetDevpodVPC cfg env with
    | mk r t =>
      rw [hg] at hv
      simp at hv
      subst hv
      simp [CreateDevpodSubnet, hg, hcs]
  · intro v s hv hcs hm
    cases hg : GetDevpodVPC cfg env with
    | mk r t =>
      rw [hg] at hv
      simp at hv
      subst hv
      simp [CreateDevpodSubnet, hg, hcs, hm]
  · intro v s hv hcs hm hrt
    cases hg : GetDevpodVPC cfg env with
    | mk r t =>
      rw [hg] at hv
      simp at hv
      subst hv
      simp [CreateDevpodSubnet, hg, hcs, hm, hrt]
  · intro v s r hv hcs hm hrt ha
    cases hg : GetDevpodVPC cfg env with
    | mk r2 t =>
      rw [hg] at hv
      simp at hv
      subst hv
      simp [CreateDevpodSubnet, hg, hcs, hm, hrt, ha]
  · intro v s r hv hcs hm hrt ha hcr
    cases hg : GetDevpodVPC cfg env with
    | mk r2 t =>
      rw [hg] at hv
      simp at hv
      subst hv
      simp [CreateDevpodSubnet, hg, hcs, hm, hrt, ha, hcr]
  · intro hsid msg hds
    simp [GetDevpodSecurityGroup, hsid, hds]

/-- Witness for C6: each propagation branch and the describe-security-
groups exception discharged at concrete scripted responses. -/
theorem resolver_error_propagation_witness :
    (GetDevpodVPC cfg0 { envNet0 with describeVpcs := .error "boom" }).1 =
      .error (.err "boom") ∧
    (GetDevpodVPC { cfg0 with CreateVpc := true }
      { envNet0 with describeVpcs := .ok [vpcPlain],
                     createVpc := .error "boom" }).1 = .error (.err "boom") ∧
    (CreateDevpodSecurityGroup cfg0
      { envNet0 with describeVpcs := .ok [vpcDefault],
                     createSecurityGroup := .error "boom" }).1 = .error (.err "boom") ∧
    (CreateDevpodSecurityGroup cfg0
      { envNet0 with describeVpcs := .ok [vpcDefault],
                     authorizeIngress := .error "boom" }).1 = .error (.err "boom") ∧
    (GetSubnetID cfg0
      { envNet0 with describeSubnetsByTag := .error "boom" }).1 =
      .error (.err "boom") ∧
    (GetSubnetID cfg0
      { envNet0 with describeSubnetsByVpc := .error "boom" }).1 =
      .error (.err "boom") ∧
    (GetDevpodSubnet { envNet0 with describeSubnetsByName := .error "boom" }).1 =
      .error (.err "boom") ∧
    (CreateDevpodSubnet cfg0
      { envNet0 with describeVpcs := .ok [vpcDefault],
                     createSubnet := .error "boom" }).1 = .error (.err "boom") ∧
    (CreateDevpodSubnet cfg0
      { envNet0 with describeVpcs := .ok [vpcDefault],
                     modifySubnetAttr := .error "boom" }).1 = .error (.err "boom") ∧
    (CreateDevpodSubnet cfg0
      { envNet0 with describeVpcs := .ok [vpcDefault],
                     createRouteTable := .error "boom" }).1 = .error (.err "boom") ∧
    (CreateDevpodSubnet cfg0
      { envNet0 with describeVpcs := .ok [vpcDefault],
                     associateRouteTable := .error "boom" }).1 = .error (.err "boom") ∧
    (CreateDevpodSubnet cfg0
      { envNet0 with describeVpcs := .ok [vpcDefault],
                     createRoute := .error "boom" }).1 = .error (.err "boom") ∧
    (GetDevpodSecurityGroup cfg0
      { envNet0 with describeSecurityGroups := (none, some "boom") }).1 =
      .error .fault := by
  refine ⟨?_, ?_, ?_, ?_, ?_, ?_, ?_, ?_, ?_, ?_, ?_, ?_, ?_⟩
  · exact (resolver_error_propagation cfg0
      { envNet0 with describeVpcs := .error "boom" } "boom").1 rfl rfl
  · exact (resolver_error_propagation { cfg0 with CreateVpc := true }
      { envNet0 with describeVpcs := .ok [vpcPlain], createVpc := .error "boom" }
      "boom").2.1 [vpcPlain] rfl rfl (by decide) (by decide) rfl rfl
  · exact (resolver_error_propagation cfg0
      { envNet0 with describeVpcs := .ok [vpcDefault],
                     createSecurityGroup := .error "boom" } "boom").2.2.1
      "vpc-d" (by decide) rfl
  · exact (resolver_error_propagation cfg0
      { envNet0 with describeVpcs := .ok [vpcDefault],
                     authorizeIngress := .error "boom" } "boom").2.2.2.1
      "vpc-d" "sg-new" (by decide) rfl rfl
  · exact (resolver_error_propagation cfg0
      { envNet0 with describeSubnetsByTag := .error "boom" } "boom").2.2.2.2.1
      rfl rfl
  · exact (resolver_error_propagation cfg0
      { envNet0 with describeSubnetsByVpc := .error "boom" } "boom").2.2.2.2.2.1
      rfl rfl rfl
  · exact (resolver_error_propagation cfg0
      { envNet0 with describeSubnetsByName := .error "boom" } "boom").2.2.2.2.2.2.1
      rfl
  · exact (resolver_error_propagation cfg0
      { envNet0 with describeVpcs := .ok [vpcDefault],
                     createSubnet := .error "boom" } "boom").2.2.2.2.2.2.2.1
      "vpc-d" (by decide) rfl
  · exact (resolver_error_propagation cfg0
      { envNet0 with describeVpcs := .ok [vpcDefault],
                     modifySubnetAttr := .error "boom" } "boom").2.2.2.2.2.2.2.2.1
      "vpc-d" "subnet-new" (by decide) rfl rfl
  · exact (resolver_error_propagation cfg0
      { envNet0 with describeVpcs := .ok [vpcDefault],
                     createRouteTable := .error "boom" } "boom").2.2.2.2.2.2.2.2.2.1
      "vpc-d" "subnet-new" (by decide) rfl rfl rfl
  · exact (resolver_error_propagation cfg0
      { envNet0 with describeVpcs := .ok [vpcDefault],
                     associateRouteTable := .error "boom" }
      "boom").2.2.2.2.2.2.2.2.2.2.1
      "vpc-d" "subnet-new" "rtb-new" (by decide) rfl rfl rfl rfl
  · exact (resolver_error_propagation cfg0
      { envNet0 with describeVpcs := .ok [vpcDefault],
                     createRoute := .error "boom" } "boom").2.2.2.2.2.2.2.2.2.2.2.1
      "vpc-d" "subnet-new" "rtb-new" (by decide) rfl rfl rfl rfl rfl
  · exact (resolver_error_propagation cfg0
      { envNet0 with describeSecurityGroups := (none, some "boom") }
      "boom").2.2.2.2.2.2.2.2.2.2.2.2 rfl "boom" rfl

/-- C8 counterexample: a subnet lookup that finds nothing does return
success.  With no explicit subnet ID and both describe responses empty,
GetSubnetID returns the empty identifier with nil error, not an error
value. -/
theorem getSubnetID_notfound_returns_success :
    GetSubnetID cfg0 envNet0 =
      (.ok "", [.describeSubnetsByTag, .describeSubnetsByVpc]) := by
  decide

/-- C8 amended: GetDevpodSubnet and the instance lookup report their
"not found" conditions as descriptive message-carrying errors, and
CreateSpotInstance turns an empty subnet resolution into a descriptive
error; GetSubnetID itself, however, reports "nothing matched" as a
success carrying the empty identifier, leaving the error to its
caller. -/
theorem notfound_conditions_reporting (cfg : Options) (env : NetEnv)
    (senv : SpotEnv) (cenv : CommandEnv) (p : Except String String) :
    (env.describeSubnetsByName = .ok [] →
      GetDevpodSubnet env =
        (.error (.err "no devpod subnet found"), [.describeSubnetsByName])) ∧
    (cenv.command ≠ "" → (∃ k, cenv.privateKey = .ok k) →
      cenv.instanceLookup = .ok [] →
      (CommandRun cfg cenv).1 =
        .error (.err ("instance " ++ cfg.MachineID ++ " doesn't exist"))) ∧
    (cfg.SubnetID = "" → env.describeSubnetsByTag = .ok [] →
      env.describeSubnetsByVpc = .ok [] →
      GetSubnetID cfg env = (.ok "", [.describeSubnetsByTag, .describeSubnetsByVpc])) ∧
    (cfg.VpcID ≠ "" → cfg.SubnetID = "" → senv.subnetLookup = .ok "" →
      (CreateSpotInstance cfg senv p).1 =
        .error (.err ("could not find a matching SubnetID in VPC " ++ cfg.VpcID ++
          ", please specify one"))) := by
  refine ⟨?_, ?_, ?_, ?_⟩
  · intro hn
    simp [GetDevpodSubnet, hn]
  · intro hcmd hkey hlook
    obtain ⟨k, hk⟩ := hkey
    have hc : (cenv.command == "") = false := by
      simpa using hcmd
    simp [CommandRun, hc, hk, hlook]
  · intro hsid ht hv
    simp [GetSubnetID, hsid, ht, hv, pickMaxSubnet]
  · intro hvid hsid hsub
    have hstep : subnetStep cfg senv =
        .error (.err ("could not find a matching SubnetID in VPC " ++ cfg.VpcID ++
          ", please specify one")) := by
      simp [subnetStep, hvid, hsid, hsub]
    simp [CreateSpotInstance, CreateSpotInstanceCore, hstep]

/-- Witness for C8 at concrete scripted responses. -/
theorem notfound_conditions_reporting_witness :
    GetDevpodSubnet envNet0 =
      (.error (.err "no devpod subnet found"), [.describeSubnetsByName]) ∧
    (CommandRun cfg0
      { command := "uptime", privateKey := .ok "KEY", instanceLookup := .ok [],
        sshConnect := fun _ => .error "refused",
        sshRun := fun _ => .ok () }).1 =
      .error (.err ("instance " ++ cfg0.MachineID ++ " doesn't exist")) ∧
    GetSubnetID cfg0 envNet0 = (.ok "", [.describeSubnetsByTag, .describeSubnetsByVpc]) ∧
    (CreateSpotInstance { cfg0 with VpcID := "vpc-7" }
      { envSpot0 with subnetLookup := .ok "" } (.error "no profile")).1 =
      .error (.err ("could not find a matching SubnetID in VPC vpc-7" ++
        ", please specify one")) := by
  refine ⟨?_, ?_, ?_, ?_⟩
  · exact (notfound_conditions_reporting cfg0 envNet0 envSpot0 envCmdBoth
      (.error "no profile")).1 rfl
  · exact (notfound_conditions_reporting cfg0 envNet0 envSpot0
      { command := "uptime", privateKey := .ok "KEY", instanceLookup := .ok [],
        sshConnect := fun _ => .error "refused", sshRun := fun _ => .ok () }
      (.error "no profile")).2.1 (by decide) ⟨"KEY", rfl⟩ rfl
  · exact (notfound_conditions_reporting cfg0 envNet0 envSpot0 envCmdBoth
      (.error "no profile")).2.2.1 rfl rfl rfl
  · exact (notfound_conditions_reporting { cfg0 with VpcID := "vpc-7" } envNet0
      { envSpot0 with subnetLookup := .ok "" } envCmdBoth (.error "no profile")).2.2.2
      (by decide) rfl rfl

/-- Predicate picking the create calls of a resolver trace. -/
def isNetCreateCall : NetCall → Bool
  | .createVpcCall _ => true
  | .createSecurityGroupCall _ _ => true
  | .createSubnetCall _ _ => true
  | .createRouteTable => true
  | .createRoute => true
  | _ => false

/-- A tagged-VPC scan that fails on a first segment continues on the
second. -/
theorem findDevpodTagged_append_none (l1 l2 : List Vpc)
    (h : findDevpodTagged l1 = none) :
    findDevpodTagged (l1 ++ l2) = findDevpodTagged l2 := by
  induction l1 with
  | nil => simp
  | cons v rest ih =>
    by_cases hv : devpodNameTagged v = true
    · rw [findDevpodTagged, if_pos hv] at h
      exact Option.noConfusion h
    · have hv' : ¬(devpodNameTagged v = true) := hv
      rw [findDevpodTagged, if_neg hv'] at h
      rw [List.cons_append, findDevpodTagged, if_neg hv']
      exact ih h

/-- GetDevpodVPC only ever issues the DescribeVpcs call and the
Name-tagged CreateVpc call. -/
theorem getDevpodVPC_trace_shape (cfg : Options) (env : NetEnv) :
    ∀ c ∈ (GetDevpodVPC cfg env).2,
      c = NetCall.describeVpcs ∨ c = NetCall.createVpcCall [("Name", "devpod")] := by
  intro c hc
  by_cases hid : cfg.VpcID ≠ ""
  · simp [GetDevpodVPC, hid] at hc
  · cases hdv : env.describeVpcs with
    | error e =>
      simp [GetDevpodVPC, hid, hdv] at hc
      tauto
    | ok vpcs =>
      by_cases hnil : (vpcs.length == 0) = true
      · simp [GetDevpodVPC, hid, hdv, hnil] at hc
        tauto
      · have hnil' : (vpcs.length == 0) = false := Bool.eq_false_iff.mpr hnil
        cases hft : findDevpodTagged vpcs with
        | some id =>
          simp [GetDevpodVPC, hid, hdv, hnil', hft] at hc
          tauto
        | none =>
          by_cases hcv : cfg.CreateVpc = true
          · cases hcr : env.createVpc with
            | error e =>
              simp [GetDevpodVPC, CreateDevpodVpc, hid, hdv, hnil', hft, hcv, hcr] at hc
              tauto
            | ok nid =>
              simp [GetDevpodVPC, CreateDevpodVpc, hid, hdv, hnil', hft, hcv, hcr] at hc
              tauto
          · have hcv' : cfg.CreateVpc = false := Bool.eq_false_iff.mpr hcv
            cases hdf : findDefault vpcs with
            | some id =>
              simp [GetDevpodVPC, hid, hdv, hnil', hft, hcv', hdf] at hc
              tauto
            | none =>
              simp [GetDevpodVPC, hid, hdv, hnil', hft, hcv', hdf] at hc
              tauto

/-- Folding describe and CreateVpc calls into the store touches neither
the security groups nor the subnets. -/
theorem foldl_applyCall_vpc_only (fv fs fn : String) :
    ∀ (t : List NetCall) (w : World),
      (∀ c ∈ t, c = NetCall.describeVpcs ∨ c = NetCall.createVpcCall [("Name", "devpod")]) →
      (t.foldl (applyCall fv fs fn) w).sgs = w.sgs ∧
      (t.foldl (applyCall fv fs fn) w).subnets = w.subnets := by
  intro t
  induction t with
  | nil => intro w h; exact ⟨rfl, rfl⟩
  | cons c rest ih =>
    intro w h
    have hc := h c (by simp)
    have hrest : ∀ c2 ∈ rest,
        c2 = NetCall.describeVpcs ∨ c2 = NetCall.createVpcCall [("Name", "devpod")] :=
      fun c2 hc2 => h c2 (by simp [hc2])
    rcases hc with hc | hc <;> subst hc <;>
      simpa [applyCall] using ih _ hrest

/-- GetSubnetID never issues a create call. -/
theorem getSubnetID_no_creates (cfg : Options) (env : NetEnv) :
    (GetSubnetID cfg env).2.filter isNetCreateCall = [] := by
  unfold GetSubnetID
  repeat' split
  all_goals simp [isNetCreateCall]

/-- The VPC a create run appends to the store. -/
def createdVpc (fv : String) : Vpc :=
  { Tags := [("Name", "devpod")], IsDefault := false, VpcId := fv }

/-- Discovery short-circuits creation for the VPC resolver: a second run
on the store left by a successful first run returns the same identifier,
changes nothing, and issues no create call. -/
theorem runWorld_vpc_idempotent (cfg : Options) (w : World)
    (fv fs fn fv2 fs2 fn2 v : String) (hid : cfg.VpcID = "")
    (h1 : (runWorld GetDevpodVPC cfg w fv fs fn).1 = .ok v) :
    (runWorld GetDevpodVPC cfg ((runWorld GetDevpodVPC cfg w fv fs fn).2.1) fv2 fs2 fn2).1 =
      .ok v ∧
    (runWorld GetDevpodVPC cfg ((runWorld GetDevpodVPC cfg w fv fs fn).2.1) fv2 fs2 fn2).2.1 =
      (runWorld GetDevpodVPC cfg w fv fs fn).2.1 ∧
    (runWorld GetDevpodVPC cfg ((runWorld GetDevpodVPC cfg w fv fs fn).2.1) fv2 fs2
      fn2).2.2.filter isNetCreateCall = [] := by
  by_cases hnil : w.vpcs = []
  · exfalso
    simp [runWorld, GetDevpodVPC, envOfWorld, hid, hnil] at h1
  · have hlen : (w.vpcs.length == 0) = false := by
      simp [List.length_eq_zero, hnil]
    cases hft : findDevpodTagged w.vpcs with
    | some id =>
      have hrun1 : runWorld GetDevpodVPC cfg w fv fs fn =
          (.ok id, w, [.describeVpcs]) := by
        simp [runWorld, GetDevpodVPC, envOfWorld, hid, hlen, hft, applyCall]
      rw [hrun1] at h1 ⊢
      simp only [Except.ok.injEq] at h1
      subst h1
      refine ⟨?_, ?_, ?_⟩ <;>
        simp [runWorld, GetDevpodVPC, envOfWorld, hid, hlen, hft, applyCall,
          isNetCreateCall]
    | none =>
      by_cases hcv : cfg.CreateVpc = true
      · have hrun1 : runWorld GetDevpodVPC cfg w fv fs fn =
            (.ok fv, { w with vpcs := w.vpcs ++ [createdVpc fv] },
             [.describeVpcs, .createVpcCall [("Name", "devpod")]]) := by
          simp [runWorld, GetDevpodVPC, envOfWorld, hid, hlen, hft, hcv,
            CreateDevpodVpc, applyCall, createdVpc]
        rw [hrun1] at h1 ⊢
        simp only [Except.ok.injEq] at h1
        subst h1
        have hsc : strContains "devpod" "devpod" = true := by decide
        have htag : devpodNameTagged (createdVpc fv) = true := by
          simp [devpodNameTagged, createdVpc, hsc]
        have hft2 : findDevpodTagged (w.vpcs ++ [createdVpc fv]) = some fv := by
          rw [findDevpodTagged_append_none _ _ hft]
          rw [findDevpodTagged, if_pos htag]
          rfl
        have hlen2 : (({ w with vpcs := w.vpcs ++ [createdVpc fv] } : World).vpcs.length
            == 0) = false := by
          simp
        refine ⟨?_, ?_, ?_⟩ <;>
          simp [runWorld, GetDevpodVPC, envOfWorld, hid, hlen2, hft2, applyCall,
            isNetCreateCall]
      · have hcv' : cfg.CreateVpc = false := Bool.eq_false_iff.mpr hcv
        cases hdf : findDefault w.vpcs with
        | none =>
          exfalso
          simp [runWorld, GetDevpodVPC, envOfWorld, hid, hlen, hft, hcv', hdf] at h1
        | some d =>
          have hrun1 : runWorld GetDevpodVPC cfg w fv fs fn =
              (.ok d, w, [.describeVpcs]) := by
            simp [runWorld, GetDevpodVPC, envOfWorld, hid, hlen, hft, hcv', hdf,
              applyCall]
          rw [hrun1] at h1 ⊢
          simp only [Except.ok.injEq] at h1
          subst h1
          refine ⟨?_, ?_, ?_⟩ <;>
            simp [runWorld, GetDevpodVPC, envOfWorld, hid, hlen, hft, hcv', hdf,
              applyCall, isNetCreateCall]

/-- The security group a create run appends to the store. -/
def createdSG (fs vpcid : String) : SecurityGroup :=
  { GroupId := fs, VpcId := vpcid, Tags := [("devpod", "devpod")] }

/-- Discovery short-circuits creation for the security-group resolver: a
second run on the store left by a successful first run returns the same
identifier, changes nothing, and issues no create call. -/
theorem runWorld_sg_idempotent (cfg : Options) (w : World)
    (fv fs fn fv2 fs2 fn2 g : String) (hid : cfg.VpcID = "")
    (hsgid : cfg.SecurityGroupID = "")
    (h1 : (runWorld GetDevpodSecurityGroup cfg w fv fs fn).1 = .ok g) :
    (runWorld GetDevpodSecurityGroup cfg
        ((runWorld GetDevpodSecurityGroup cfg w fv fs fn).2.1) fv2 fs2 fn2).1 = .ok g ∧
    (runWorld GetDevpodSecurityGroup cfg
        ((runWorld GetDevpodSecurityGroup cfg w fv fs fn).2.1) fv2 fs2 fn2).2.1 =
      (runWorld GetDevpodSecurityGroup cfg w fv fs fn).2.1 ∧
    ((runWorld GetDevpodSecurityGroup cfg
        ((runWorld GetDevpodSecurityGroup cfg w fv fs fn).2.1) fv2 fs2 fn2).2.2).filter
      isNetCreateCall = [] := by
  cases hq : sgQuery cfg w with
  | cons g0 grest =>
    have hrun1 : runWorld GetDevpodSecurityGroup cfg w fv fs fn =
        (.ok g0.GroupId, w, [.describeSecurityGroups]) := by
      simp [runWorld, GetDevpodSecurityGroup, envOfWorld, hsgid, hq, applyCall]
    rw [hrun1] at h1 ⊢
    simp only [Except.ok.injEq] at h1
    subst h1
    refine ⟨?_, ?_, ?_⟩ <;>
      simp [runWorld, GetDevpodSecurityGroup, envOfWorld, hsgid, hq, applyCall,
        isNetCreateCall]
  | nil =>
    cases hv : GetDevpodVPC cfg (envOfWorld cfg w fv fs fn) with
    | mk vres vtrace =>
      simp only [envOfWorld, hq] at hv
      cases vres with
      | error e =>
        exfalso
        simp [runWorld, GetDevpodSecurityGroup, CreateDevpodSecurityGroup, envOfWorld,
          hsgid, hq, hv] at h1
      | ok vpcid =>
        have hGet : GetDevpodSecurityGroup cfg (envOfWorld cfg w fv fs fn) =
            (.ok fs, .describeSecurityGroups :: (vtrace ++
              [.createSecurityGroupCall [("devpod", "devpod")] vpcid,
               .authorizeSecurityGroupIngress])) := by
          simp [GetDevpodSecurityGroup, CreateDevpodSecurityGroup, envOfWorld, hsgid,
            hq, hv]
        have hrun1 : runWorld GetDevpodSecurityGroup cfg w fv fs fn =
            (.ok fs,
             ((NetCall.describeSecurityGroups :: (vtrace ++
               [.createSecurityGroupCall [("devpod", "devpod")] vpcid,
                .authorizeSecurityGroupIngress])).foldl (applyCall fv fs fn) w),
             .describeSecurityGroups :: (vtrace ++
               [.createSecurityGroupCall [("devpod", "devpod")] vpcid,
                .authorizeSecurityGroupIngress])) := by
          simp [runWorld, hGet]
        have hshape : ∀ c ∈ vtrace,
            c = NetCall.describeVpcs ∨ c = NetCall.createVpcCall [("Name", "devpod")] := by
          have h := getDevpodVPC_trace_shape cfg (envOfWorld cfg w fv fs fn)
          simp only [envOfWorld, hq] at h
          rw [hv] at h
          exact h
        have hfold := foldl_applyCall_vpc_only fv fs fn vtrace w hshape
        have hW1sgs : ((NetCall.describeSecurityGroups :: (vtrace ++
            [.createSecurityGroupCall [("devpod", "devpod")] vpcid,
             .authorizeSecurityGroupIngress])).foldl (applyCall fv fs fn) w).sgs =
            w.sgs ++ [createdSG fs vpcid] := by
          simp [List.foldl_cons, List.foldl_append, applyCall, createdSG, hfold.1]
        have hqX : ∀ vp sn, sgQuery cfg
            { vpcs := vp,
              sgs := w.sgs ++
                [{ GroupId := fs, VpcId := vpcid, Tags := [("devpod", "devpod")] }],
              subnets := sn } =
            [{ GroupId := fs, VpcId := vpcid, Tags := [("devpod", "devpod")] }] := by
          intro vp sn
          unfold sgQuery at hq ⊢
          rw [List.filter_append, hq]
          simp [hasTag, hid]
        rw [hrun1] at h1 ⊢
        simp only [Except.ok.injEq] at h1
        subst h1
        refine ⟨?_, ?_, ?_⟩ <;>
          simp [runWorld, GetDevpodSecurityGroup, envOfWorld, hsgid, hfold.1, hqX,
            createdSG, applyCall, isNetCreateCall]

/-- A resource store holding one default VPC and nothing else. -/
def w0 : World := { vpcs := [vpcDefault], sgs := [], subnets := [] }

/-- C7 counterexample: CreateDevpodSubnet tags the subnet devpod =
MachineID while GetSubnetID queries tag devpod = "devpod", so after a
first invocation that created the subnet and returned its identifier,
the discovery query finds nothing and the lookup returns the empty
identifier instead of the created one. -/
theorem subnet_discovery_misses_created_subnet :
    (runWorld CreateDevpodSubnet cfg0 w0 "vpc-n" "sg-n" "subnet-n").1 =
      .ok "subnet-n" ∧
    (runWorld CreateDevpodSubnet cfg0 w0 "vpc-n" "sg-n" "subnet-n").2.1.subnets.map
      Subnet.Tags = [[("Name", "devpod"), ("devpod", "devpod-m")]] ∧
    (runWorld GetSubnetID cfg0
      ((runWorld CreateDevpodSubnet cfg0 w0 "vpc-n" "sg-n" "subnet-n").2.1)
      "vpc-n2" "sg-n2" "subnet-n2").1 = .ok "" ∧
    ((Except.ok "" : Except PErr String) ≠ .ok "subnet-n") := by
  refine ⟨by decide, by decide, by decide, by decide⟩

/-- C7 amended: rerunning the resolver on the store left by a successful
first run is idempotent for the VPC and the security group (their
discovery queries match the tags their create calls attach): the same
identifiers come back, the store is unchanged, and no create call is
issued; GetSubnetID never issues a create call at all.  The subnet
create-discovery pair, by contrast, does not rediscover (see the
counterexample). -/
theorem resolver_rerun_idempotent (cfg : Options) (w : World)
    (fv fs fn fv2 fs2 fn2 : String) (hid : cfg.VpcID = "")
    (hsgid : cfg.SecurityGroupID = "") :
    (∀ v, (runWorld GetDevpodVPC cfg w fv fs fn).1 = .ok v →
      (runWorld GetDevpodVPC cfg ((runWorld GetDevpodVPC cfg w fv fs fn).2.1)
        fv2 fs2 fn2).1 = .ok v ∧
      (runWorld GetDevpodVPC cfg ((runWorld GetDevpodVPC cfg w fv fs fn).2.1)
        fv2 fs2 fn2).2.1 = (runWorld GetDevpodVPC cfg w fv fs fn).2.1 ∧
      ((runWorld GetDevpodVPC cfg ((runWorld GetDevpodVPC cfg w fv fs fn).2.1)
        fv2 fs2 fn2).2.2).filter isNetCreateCall = []) ∧
    (∀ g, (runWorld GetDevpodSecurityGroup cfg w fv fs fn).1 = .ok g →
      (runWorld GetDevpodSecurityGroup cfg
        ((runWorld GetDevpodSecurityGroup cfg w fv fs fn).2.1) fv2 fs2 fn2).1 = .ok g ∧
      (runWorld GetDevpodSecurityGroup cfg
        ((runWorld GetDevpodSecurityGroup cfg w fv fs fn).2.1) fv2 fs2 fn2).2.1 =
        (runWorld GetDevpodSecurityGroup cfg w fv fs fn).2.1 ∧
      ((runWorld GetDevpodSecurityGroup cfg
        ((runWorld GetDevpodSecurityGroup cfg w fv fs fn).2.1) fv2 fs2 fn2).2.2).filter
        isNetCreateCall = []) ∧
    (∀ env, (GetSubnetID cfg env).2.filter isNetCreateCall = []) :=
  ⟨fun v h => runWorld_vpc_idempotent cfg w fv fs fn fv2 fs2 fn2 v hid h,
   fun g h => runWorld_sg_idempotent cfg w fv fs fn fv2 fs2 fn2 g hid hsgid h,
   fun env => getSubnetID_no_creates cfg env⟩

/-- Witness for C7: the default VPC is rediscovered, the created security
group is rediscovered with no second create, and the subnet lookup
issues no creates, all at a concrete store. -/
theorem resolver_rerun_idempotent_witness :
    (runWorld GetDevpodVPC cfg0
      ((runWorld GetDevpodVPC cfg0 w0 "vpc-a" "sg-a" "sn-a").2.1)
      "vpc-b" "sg-b" "sn-b").1 = .ok "vpc-d" ∧
    (runWorld GetDevpodSecurityGroup cfg0
      ((runWorld GetDevpodSecurityGroup cfg0 w0 "vpc-a" "sg-a" "sn-a").2.1)
      "vpc-b" "sg-b" "sn-b").1 = .ok "sg-a" ∧
    ((runWorld GetDevpodSecurityGroup cfg0
      ((runWorld GetDevpodSecurityGroup cfg0 w0 "vpc-a" "sg-a" "sn-a").2.1)
      "vpc-b" "sg-b" "sn-b").2.2).filter isNetCreateCall = [] ∧
    (GetSubnetID cfg0 envNet0).2.filter isNetCreateCall = [] := by
  have h := resolver_rerun_idempotent cfg0 w0 "vpc-a" "sg-a" "sn-a" "vpc-b" "sg-b"
    "sn-b" rfl rfl
  exact ⟨(h.1 "vpc-d" (by decide)).1, (h.2.1 "sg-a" (by decide)).1,
    (h.2.1 "sg-a" (by decide)).2.2, h.2.2 envNet0⟩
